import Mathlib

/-!
Verification of the `PulseOximeterBLE` module (src/PulseOximeterBLE.py).

The Python class is embedded shallowly:
* numeric readings and timestamps are rationals (the device reports small
  integers; Python floats are modelled as exact rationals);
* the three `pd.Series` channels are lists of (index, value) pairs, and
  `pd.Series.append` is list append;
* the read loop `receive_data` is a fold over a finite list of loop
  iterations (`Tick`s); each tick carries the environment-controlled values
  the iteration observes (`self.connection.connected`, `self.thread.running`,
  `service.values`, the two `time.perf_counter() - t0` readings);
* Python exceptions are an explicit `PyErr` value in the result;
* the filesystem touched by `save_csv` is an explicit record of directories
  and files.
-/

/-- Python exception classes that the module can raise or catch.
`connectionError` stands for `self.connection_error`
(`ConnectionError`, or `_bleio.ConnectionError` when available). -/
inductive PyErr where
  | connectionError
  | attributeError
  | nameError
  | assertionError
  | indexError
  deriving DecidableEq, Repr

/-- The raw 5-tuple delivered by `service.values`, destructured in
`receive_data` as `[valid, SpO2, BPM, pleth, finger_in]`. -/
structure RawSample where
  valid : Bool
  SpO2 : ℚ
  BPM : ℚ
  pleth : ℚ
  finger_in : Bool
  deriving DecidableEq, Repr

/-- Line 157: `valid_sample = valid and finger_in and BPM < 255`. -/
def valid_sample (r : RawSample) : Bool :=
  r.valid && r.finger_in && decide (r.BPM < 255)

/-- The mutable recording state built up by `receive_data`: the three
`pd.Series` channels (index/value pairs), the `timestamps` list and the
`full_record` list of raw tuples. -/
structure Record where
  BPM_series : List (ℚ × ℚ)
  SpO2_series : List (ℚ × ℚ)
  Pleth_series : List (ℚ × ℚ)
  timestamps : List ℚ
  full_record : List RawSample
  deriving DecidableEq, Repr

/-- Lines 53-57: `update_record(self, data, t)` appends one point, indexed
by `t`, to each of the three series. -/
def update_record (rec : Record) (data : ℚ × ℚ × ℚ) (t : ℚ) : Record :=
  { rec with
    BPM_series := rec.BPM_series ++ [(t, data.1)]
    SpO2_series := rec.SpO2_series ++ [(t, data.2.1)]
    Pleth_series := rec.Pleth_series ++ [(t, data.2.2)] }

/-- One iteration of the `while` loop in `receive_data`, as observed from
the environment: the connectivity test, the cooperative-stop flag, the
value of `service.values`, and the two `time.perf_counter() - t0` elapsed
readings taken during the iteration. -/
structure Tick where
  connected : Bool
  running : Bool
  read_data : Option RawSample
  tSample : ℚ
  tCheck : ℚ
  deriving DecidableEq, Repr

/-- `round(t, 2)` (Python rounds to two decimal places). -/
def round2 (t : ℚ) : ℚ := (round (100 * t) : ℤ) / 100

/-- Line 174, `if duration and t > duration`: `duration` is truthy
(not `None` and nonzero) and the elapsed time exceeds it. -/
def duration_cutoff (duration : Option ℚ) (t : ℚ) : Bool :=
  match duration with
  | none => false
  | some d => decide (d ≠ 0) && decide (t > d)

/-- Lines 152-170: the body of one loop iteration (read `service.values`,
validate, timestamp, store). -/
def receive_step (rec : Record) (tk : Tick) : Record :=
  match tk.read_data with
  | none => rec
  | some r =>
    if valid_sample r then
      let t := round2 tk.tSample
      let rec1 := { rec with timestamps := rec.timestamps ++ [t] }
      let rec2 := update_record rec1 (r.BPM, r.SpO2, r.pleth) t
      { rec2 with full_record := rec2.full_record ++ [r] }
    else rec

/-- Lines 151-176: the `while self.connection.connected and
self.thread.running` loop. Returns the final record together with the
list of ticks whose body actually ran (the loop exits either because the
head tick fails the loop condition, because the duration cutoff fires, or
because the environment trace is exhausted). -/
def receive_loop (duration : Option ℚ) : List Tick → Record → Record × List Tick
  | [], rec => (rec, [])
  | tk :: rest, rec =>
    if tk.connected && tk.running then
      let rec1 := receive_step rec tk
      if duration_cutoff duration tk.tCheck then (rec1, [tk])
      else
        let res := receive_loop duration rest rec1
        (res.1, tk :: res.2)
    else (rec, [])

/-- Lines 129-183: `receive_data` starts from freshly emptied series and
runs the read loop. -/
def receive_data (duration : Option ℚ) (ticks : List Tick) : Record × List Tick :=
  receive_loop duration ticks ⟨[], [], [], [], []⟩

/-- A tick whose iteration appends a sample: it carries a sample and that
sample passes validation. -/
def tickValid (tk : Tick) : Bool :=
  match tk.read_data with
  | some r => valid_sample r
  | none => false

/-- Line 76, `name.strip('\x00')`: Python `str.strip` removes the given
character from both ends of the string (not from the middle). -/
def stripNulls (s : String) : String :=
  ⟨((s.data.dropWhile (· = '\x00')).reverse.dropWhile (· = '\x00')).reverse⟩

/-- A discovered advertisement; `complete_name` is `None` or a string. -/
structure Advert where
  complete_name : Option String
  deriving DecidableEq, Repr

/-- Lines 73-79: an advertisement is connected to when its name is present
and truthy (`if not name: continue`) and, after null-stripping, equals the
target. -/
def advert_matches (target : String) (a : Advert) : Bool :=
  match a.complete_name with
  | none => false
  | some name => if name = "" then false else stripNulls name == target

/-- The `for advert in self.ble_radio.start_scan(...)` loop of
`connect_pulse_oximeter`, over the finite list of advertisements the scan
yields before its timeout: connect to the first match and `break`. -/
def scan_loop (target : String) : List Advert → Option Advert
  | [] => none
  | a :: rest => if advert_matches target a then some a else scan_loop target rest

/-- Outcome of `connect_pulse_oximeter`: the resulting `self.connection`
and whether `stop_scan` ran (line 89, unconditionally after the loop). -/
structure ConnectResult where
  connection : Option Advert
  scan_stopped : Bool
  deriving DecidableEq, Repr

/-- Lines 60-94: scan, connect to the first advertisement whose stripped
name equals `target`, then stop the scan. -/
def connect_pulse_oximeter (target : String) (adverts : List Advert) : ConnectResult :=
  { connection := scan_loop target adverts, scan_stopped := true }

/-- A live transport handle (`self.connection` when not `None`): whether it
reports itself connected, and what its `disconnect()` call would raise
(`none` = closes cleanly). -/
structure Conn where
  connected : Bool
  disconnectRaises : Option PyErr
  deriving DecidableEq, Repr

/-- The session state of a `PulseOximeterBLE` object: the transport handle
and the recorded data, if any. -/
structure OxState where
  connection : Option Conn
  record : Option Record
  deriving DecidableEq, Repr

/-- Lines 37-39, the `connected` property:
`self.connection and self.connection.connected`. -/
def OxState.connected (st : OxState) : Bool :=
  match st.connection with
  | none => false
  | some c => c.connected

/-- Lines 96-103, `disconnect_pulse_oximeter`:
`try: self.connection.disconnect() except self.connection_error: pass`
then `self.connection = None`. When `self.connection` is `None`, the
attribute access `None.disconnect()` raises `AttributeError`, which the
`except` clause (catching only `self.connection_error`) does not catch,
so it propagates and the final assignment is not reached. An exception
from `disconnect()` other than `self.connection_error` likewise
propagates, leaving the handle in place. -/
def disconnect_pulse_oximeter (st : OxState) : OxState × Except PyErr Unit :=
  match st.connection with
  | none => (st, .error .attributeError)
  | some c =>
    match c.disconnectRaises with
    | none => ({ st with connection := none }, .ok ())
    | some .connectionError => ({ st with connection := none }, .ok ())
    | some e => (st, .error e)

/-- Lines 187-206, `read(duration, threaded)`. The environment supplies
the outcome of `receive_data` (`recv`; an exception there surfaces at the
`try` of line 199 when `threaded=False`) and the advisory text printed by
`read_device_info` and `receive_data` (`dev_out`, `recv_out`). The result
is the new state, the printed output, and the call's exception outcome.
When nothing is connected the body is skipped entirely. In the `except
self.connection_error` handler, line 206 reads the unbound bare name
`disconnect_pulse_oximeter` (the method is only reachable as
`self.disconnect_pulse_oximeter`), so the handler itself raises
`NameError` and `self.connection` is left untouched. -/
def PulseOximeterBLE.read (st : OxState) (recv : Except PyErr Record)
    (dev_out recv_out : List String) (threaded : Bool) :
    OxState × List String × Except PyErr Unit :=
  match st.connection with
  | none => (st, [], .ok ())
  | some c =>
    if c.connected then
      let header := "Obteniendo datos del dispositivo..."
      if threaded then
        (st, header :: dev_out, .ok ())
      else
        match recv with
        | .ok rec => ({ st with record := some rec }, header :: (dev_out ++ recv_out), .ok ())
        | .error .connectionError => (st, header :: (dev_out ++ recv_out), .error .nameError)
        | .error e => (st, header :: (dev_out ++ recv_out), .error e)
    else (st, [], .ok ())

/-- Lines 44-47: the `dataframe` property assembles columns in the fixed
order `BPM`, `SpO2`, `Pleth`. -/
def dataframe_columns : List String := ["BPM", "SpO2", "Pleth"]

/-- The header row `pandas.DataFrame.to_csv` writes: the (empty) name of
the index — the series were built with unnamed indexes — followed by the
column names. -/
def csv_header_cells : List String := "" :: dataframe_columns

/-- The data rows of `to_csv`: one row per entry of the (shared) series
index, cells rendered as text: index value, then BPM, SpO2, Pleth. -/
def csv_rows (rec : Record) : List (List String) :=
  (rec.BPM_series.zip (rec.SpO2_series.zip rec.Pleth_series)).map
    (fun bsp => [toString bsp.1.1, toString bsp.1.2, toString bsp.2.1.2, toString bsp.2.2.2])

/-- Line 233, `self.dataframe.to_csv(path, sep='\t')`: tab-separated rows,
newline-terminated, header row first. -/
def to_csv (rec : Record) : String :=
  String.intercalate "\n" ((csv_header_cells :: csv_rows rec).map (String.intercalate "\t")) ++ "\n"

/-- The filesystem as `save_csv` observes it: existing directories and
existing files with their contents. -/
structure FileSystem where
  dirs : List String
  files : List (String × String)
  deriving DecidableEq, Repr

/-- `os.path.isdir`. -/
def isdir (fs : FileSystem) (d : String) : Bool := fs.dirs.contains d

/-- `os.path.isfile`. -/
def isfile (fs : FileSystem) (p : String) : Bool := fs.files.any (fun kv => kv.1 == p)

/-- Python slice `s[-n:]`: the last `n` characters (the whole string when
it is shorter than `n`). -/
def pyLast (n : Nat) (s : String) : String := ⟨s.data.drop (s.data.length - n)⟩

/-- Lines 215-218: when `filename` is `None` it is generated from the
current date-time string plus `.txt`, with the optional prefix in front. -/
def resolve_filename (filename : Option String) (pre : Option String) (nowStr : String) :
    String :=
  match filename with
  | some f => f
  | none =>
    let base := nowStr ++ ".txt"
    match pre with
    | some p => p ++ "_" ++ base
    | none => base

/-- Line 221, `if folder[-1] not in ['\\', '/']: folder += '/'`; indexing
`folder[-1]` raises `IndexError` on an empty string. -/
def normalize_folder (folder : String) : Option String :=
  match folder.data.getLast? with
  | none => none
  | some c => some (if c = '\\' ∨ c = '/' then folder else folder ++ "/")

/-- Lines 213-234, `save_csv(filename, folder, prefix)` (`pre` here, since
`prefix` is reserved in Lean), acting on filesystem `fs` with the recorded
data `rec`; `nowStr` is the formatted current date-time. Returns the
resulting filesystem, the printed output and the exception outcome.
Order of effects as in the source: extension assertion, folder
normalization, `os.mkdir` when the folder is absent, existing-file
assertion, write. -/
def save_csv (rec : Record) (fs : FileSystem) (filename : Option String) (folder : String)
    (pre : Option String) (nowStr : String) : FileSystem × List String × Except PyErr Unit :=
  let fname := resolve_filename filename pre nowStr
  if pyLast 4 fname = ".csv" ∨ pyLast 4 fname = ".txt" then
    match normalize_folder folder with
    | none => (fs, [], .error .indexError)
    | some fldr =>
      let step :=
        if isdir fs fldr then (fs, ([] : List String))
        else ({ fs with dirs := fldr :: fs.dirs }, ["Carpeta " ++ fldr ++ " creada."])
      let path := fldr ++ fname
      if isfile step.1 path then (step.1, step.2, .error .assertionError)
      else ({ step.1 with files := (path, to_csv rec) :: step.1.files },
            step.2 ++ ["Guardado en " ++ path], .ok ())
  else (fs, [], .error .assertionError)

/-- C1: a raw 5-tuple is accepted into the retained series exactly when
`valid` is true, `finger_present` (`finger_in`) is true and the pulse rate
(`BPM`) is below 255; the verdict ignores the other two fields, and is
false whenever any of the three conditions fails. -/
theorem c1_sample_validation :
    (∀ r : RawSample,
      valid_sample r = true ↔ (r.valid = true ∧ r.finger_in = true ∧ r.BPM < 255)) ∧
    (∀ (r : RawSample) (s p : ℚ),
      valid_sample { r with SpO2 := s, pleth := p } = valid_sample r) ∧
    (∀ r : RawSample,
      r.valid = false ∨ r.finger_in = false ∨ 255 ≤ r.BPM → valid_sample r = false) := by
  refine ⟨?_, ?_, ?_⟩
  · intro r
    simp [valid_sample, and_assoc]
  · intro r s p
    simp [valid_sample]
  · intro r h
    rcases h with h | h | h
    · simp [valid_sample, h]
    · simp [valid_sample, h]
    · have hd : decide (r.BPM < 255) = false := decide_eq_false (not_lt.mpr h)
      simp [valid_sample, hd]

/-- Witness for C1 at a concrete sample: `valid = false` forces rejection. -/
theorem c1_sample_validation_witness :
    valid_sample { valid := false, SpO2 := 98, BPM := 72, pleth := 50, finger_in := true }
      = false :=
  c1_sample_validation.2.2 _ (Or.inl rfl)

/-- C3 counterexample: with no transport handle (`self.connection = None`),
`disconnect_pulse_oximeter` raises `AttributeError` to the caller instead
of returning normally, refuting "never raises to the caller" from that
state. -/
theorem c3_disconnect_counterexample :
    disconnect_pulse_oximeter { connection := none, record := none } =
      ({ connection := none, record := none }, .error .attributeError) := rfl

/-- C3 amended: when a transport handle exists and its `disconnect()`
either succeeds or raises the transport-level "already disconnected"
error, the call swallows that error, raises nothing, and discards the
handle, leaving the session disconnected; when no handle exists, the call
raises `AttributeError` and the state is unchanged. -/
theorem c3_disconnect_amended :
    (∀ (st : OxState) (c : Conn), st.connection = some c →
      c.disconnectRaises = none ∨ c.disconnectRaises = some .connectionError →
      disconnect_pulse_oximeter st = ({ st with connection := none }, .ok ())) ∧
    (∀ st : OxState, st.connection = none →
      disconnect_pulse_oximeter st = (st, .error .attributeError)) := by
  constructor
  · intro st c hc h
    rcases h with h | h <;> simp [disconnect_pulse_oximeter, hc, h]
  · intro st h
    simp [disconnect_pulse_oximeter, h]

/-- Witness for C3 (amended) at a concrete state: a handle whose close
raises the transport-level error is swallowed and the handle discarded. -/
theorem c3_disconnect_amended_witness :
    disconnect_pulse_oximeter
        { connection := some { connected := true, disconnectRaises := some .connectionError },
          record := none } =
      ({ connection := none, record := none }, .ok ()) :=
  c3_disconnect_amended.1 _ _ rfl (Or.inr rfl)

/-- C4 (code bug): with a live connection, when `receive_data` raises the
transport-level `ConnectionError`, the `except` handler at line 206
evaluates the unbound bare name `disconnect_pulse_oximeter` and therefore
raises `NameError` to the caller of `read`; the transport handle is not
cleared. The evident intent (`self.disconnect_pulse_oximeter()`) matches
the claim; the code is a slip. -/
theorem c4_read_handler_raises :
    PulseOximeterBLE.read { connection := some { connected := true, disconnectRaises := none }, record := none }
        (.error .connectionError) [] [] false =
      ({ connection := some { connected := true, disconnectRaises := none }, record := none },
        ["Obteniendo datos del dispositivo..."], .error .nameError) := rfl

/-- C8: an acquisition requested while not connected (no handle, or a
handle reporting not connected) is a silent no-op: `read` raises nothing,
prints nothing, and returns the state unchanged. -/
theorem c8_read_not_connected_noop :
    ∀ (st : OxState) (recv : Except PyErr Record) (dev_out recv_out : List String)
      (threaded : Bool),
      st.connected = false →
      PulseOximeterBLE.read st recv dev_out recv_out threaded = (st, [], .ok ()) := by
  intro st recv dev_out recv_out threaded h
  match hc : st.connection with
  | none => simp [PulseOximeterBLE.read, hc]
  | some c =>
    have : c.connected = false := by simpa [OxState.connected, hc] using h
    simp [PulseOximeterBLE.read, hc, this]

/-- Witness for C8 at a concrete state: a handle that reports itself not
connected yields the silent no-op. -/
theorem c8_read_not_connected_noop_witness :
    PulseOximeterBLE.read { connection := some { connected := false, disconnectRaises := none }, record := none }
        (.ok ⟨[], [], [], [], []⟩) ["x"] ["y"] true =
      ({ connection := some { connected := false, disconnectRaises := none }, record := none },
        [], .ok ()) :=
  c8_read_not_connected_noop _ _ _ _ _ rfl

/-- Stripping nulls from the empty string yields the empty string. -/
theorem stripNulls_empty : stripNulls "" = "" := rfl

/-- C7: discovery name matching. The concrete examples:
`"BerryMed\x00\x00"` matches target `"BerryMed"` after null-stripping
while `"BerryMedX"` does not. Generally, for any nonempty target: an
advertisement with an advertised name is connected to exactly when the
stripped name equals the target; the scan is always stopped afterwards;
if no advertisement matches (timeout with no match) the connection stays
absent; and the first matching advertisement is the one connected to
(the loop breaks there, ignoring the rest). -/
theorem c7_discovery_matching :
    stripNulls "BerryMed\x00\x00" = "BerryMed" ∧
    stripNulls "BerryMedX" ≠ "BerryMed" ∧
    (∀ target : String, target ≠ "" →
      (∀ (a : Advert) (n : String), a.complete_name = some n →
        (advert_matches target a = true ↔ stripNulls n = target)) ∧
      (∀ adverts : List Advert,
        (connect_pulse_oximeter target adverts).scan_stopped = true ∧
        ((∀ a ∈ adverts, advert_matches target a = false) →
          (connect_pulse_oximeter target adverts).connection = none)) ∧
      (∀ (a : Advert) (rest : List Advert), advert_matches target a = true →
        (connect_pulse_oximeter target (a :: rest)).connection = some a)) := by
  refine ⟨by decide, by decide, ?_⟩
  intro target htarget
  refine ⟨?_, ?_, ?_⟩
  · intro a n hn
    constructor
    · intro h
      by_cases hempty : n = ""
      · simp [advert_matches, hn, hempty] at h
      · simpa [advert_matches, hn, hempty] using h
    · intro h
      have hempty : n ≠ "" := by
        intro he
        rw [he, stripNulls_empty] at h
        exact htarget h.symm
      simp [advert_matches, hn, hempty, h]
  · intro adverts
    refine ⟨rfl, ?_⟩
    intro hall
    show scan_loop target adverts = none
    induction adverts with
    | nil => rfl
    | cons a rest ih =>
      have ha := hall a (List.mem_cons_self a rest)
      simp only [scan_loop, ha, if_false]
      exact ih (fun b hb => hall b (List.mem_cons_of_mem a hb))
  · intro a rest h
    show scan_loop target (a :: rest) = some a
    simp [scan_loop, h]

/-- Witness for C7 at concrete inputs: the null-padded advertisement
connects, and a scan that sees only `"BerryMedX"` ends with no
connection and the scan stopped. -/
theorem c7_discovery_matching_witness :
    (connect_pulse_oximeter "BerryMed"
        [⟨some "BerryMed\x00\x00"⟩]).connection = some ⟨some "BerryMed\x00\x00"⟩ ∧
    (connect_pulse_oximeter "BerryMed" [⟨some "BerryMedX"⟩]).connection = none ∧
    (connect_pulse_oximeter "BerryMed" [⟨some "BerryMedX"⟩]).scan_stopped = true := by
  refine ⟨?_, ?_, ?_⟩
  · exact (c7_discovery_matching.2.2 "BerryMed" (by decide)).2.2 _ [] (by decide)
  · exact ((c7_discovery_matching.2.2 "BerryMed" (by decide)).2.1 _).2 (by decide)
  · exact ((c7_discovery_matching.2.2 "BerryMed" (by decide)).2.1 _).1

/-- C10: a run started with `duration=0` behaves exactly like a run with
no duration set (`0` is falsy at line 174, so the loop never breaks on
elapsed time); for every strictly positive duration the cutoff fires
exactly when the elapsed time exceeds it. -/
theorem c10_zero_duration :
    (∀ t : ℚ, duration_cutoff (some 0) t = false) ∧
    (∀ (ticks : List Tick) (rec : Record),
      receive_loop (some 0) ticks rec = receive_loop none ticks rec) ∧
    (∀ d t : ℚ, 0 < d → (duration_cutoff (some d) t = true ↔ d < t)) := by
  refine ⟨?_, ?_, ?_⟩
  · intro t
    simp [duration_cutoff]
  · intro ticks
    induction ticks with
    | nil => intro rec; rfl
    | cons tk rest ih =>
      intro rec
      have hc : duration_cutoff (some 0) tk.tCheck = duration_cutoff none tk.tCheck := by
        simp [duration_cutoff]
      simp only [receive_loop, hc, ih]
  · intro d t hd
    simp [duration_cutoff, ne_of_gt hd]

/-- Witness for C10 at concrete values: a positive duration of `1` fires
the cutoff at elapsed time `2` and not at `1/2`. -/
theorem c10_zero_duration_witness :
    duration_cutoff (some 1) 2 = true ∧ duration_cutoff (some 1) (1/2) ≠ true := by
  constructor
  · exact (c10_zero_duration.2.2 1 2 (by norm_num)).mpr (by norm_num)
  · intro h
    have := (c10_zero_duration.2.2 1 (1/2) (by norm_num)).mp h
    norm_num at this

/-- One loop-body step grows every stored sequence by one exactly when the
tick carries a sample that passes validation, and otherwise leaves all of
them unchanged. -/
theorem receive_step_lengths (rec : Record) (tk : Tick) :
    (receive_step rec tk).BPM_series.length
        = rec.BPM_series.length + (if tickValid tk then 1 else 0) ∧
    (receive_step rec tk).SpO2_series.length
        = rec.SpO2_series.length + (if tickValid tk then 1 else 0) ∧
    (receive_step rec tk).Pleth_series.length
        = rec.Pleth_series.length + (if tickValid tk then 1 else 0) ∧
    (receive_step rec tk).timestamps.length
        = rec.timestamps.length + (if tickValid tk then 1 else 0) ∧
    (receive_step rec tk).full_record.length
        = rec.full_record.length + (if tickValid tk then 1 else 0) := by
  match hr : tk.read_data with
  | none => simp [receive_step, tickValid, hr]
  | some r =>
    by_cases hv : valid_sample r = true
    · simp [receive_step, tickValid, hr, hv, update_record]
    · simp [receive_step, tickValid, hr, hv]

/-- Running the loop from any record grows every stored sequence by the
number of processed ticks whose sample passed validation. -/
theorem receive_loop_lengths (duration : Option ℚ) (ticks : List Tick) (rec : Record) :
    ((receive_loop duration ticks rec).1.BPM_series.length
        = rec.BPM_series.length
          + ((receive_loop duration ticks rec).2.filter tickValid).length) ∧
    ((receive_loop duration ticks rec).1.SpO2_series.length
        = rec.SpO2_series.length
          + ((receive_loop duration ticks rec).2.filter tickValid).length) ∧
    ((receive_loop duration ticks rec).1.Pleth_series.length
        = rec.Pleth_series.length
          + ((receive_loop duration ticks rec).2.filter tickValid).length) ∧
    ((receive_loop duration ticks rec).1.timestamps.length
        = rec.timestamps.length
          + ((receive_loop duration ticks rec).2.filter tickValid).length) ∧
    ((receive_loop duration ticks rec).1.full_record.length
        = rec.full_record.length
          + ((receive_loop duration ticks rec).2.filter tickValid).length) := by
  induction ticks generalizing rec with
  | nil => simp [receive_loop]
  | cons tk rest ih =>
    by_cases hcond : (tk.connected && tk.running) = true
    · by_cases hcut : duration_cutoff duration tk.tCheck = true
      · have hstep := receive_step_lengths rec tk
        simp only [receive_loop, hcond, hcut, if_true, if_pos]
        by_cases hv : tickValid tk = true
        · simp only [List.filter_cons, hv, if_pos, List.filter_nil, List.length_cons,
            List.length_nil]
          simp [hstep.1, hstep.2.1, hstep.2.2.1, hstep.2.2.2.1, hstep.2.2.2.2, hv]
        · simp only [List.filter_cons, hv]
          simp [hstep.1, hstep.2.1, hstep.2.2.1, hstep.2.2.2.1, hstep.2.2.2.2, hv,
            Bool.false_eq_true]
      · have hstep := receive_step_lengths rec tk
        have ihs := ih (receive_step rec tk)
        simp only [receive_loop, hcond, hcut, if_true, if_neg, Bool.false_eq_true,
          if_false]
        by_cases hv : tickValid tk = true
        · simp only [List.filter_cons, hv, if_pos, List.length_cons]
          constructor
          · rw [ihs.1, hstep.1]; simp [hv]; ring
          constructor
          · rw [ihs.2.1, hstep.2.1]; simp [hv]; ring
          constructor
          · rw [ihs.2.2.1, hstep.2.2.1]; simp [hv]; ring
          constructor
          · rw [ihs.2.2.2.1, hstep.2.2.2.1]; simp [hv]; ring
          · rw [ihs.2.2.2.2, hstep.2.2.2.2]; simp [hv]; ring
        · simp only [List.filter_cons, hv]
          constructor
          · rw [ihs.1, hstep.1]; simp [hv]
          constructor
          · rw [ihs.2.1, hstep.2.1]; simp [hv]
          constructor
          · rw [ihs.2.2.1, hstep.2.2.1]; simp [hv]
          constructor
          · rw [ihs.2.2.2.1, hstep.2.2.2.1]; simp [hv]
          · rw [ihs.2.2.2.2, hstep.2.2.2.2]; simp [hv]
    · simp [receive_loop, hcond]

/-- C2: for every completed run, the three channel sequences have equal
length, that length equals the number of processed samples that passed
validation (and equals the length of the timestamp list), and
`update_record` extends all three channels together, with the same
timestamp index `t` attached to each. -/
theorem c2_channels_aligned :
    (∀ (duration : Option ℚ) (ticks : List Tick),
      (receive_data duration ticks).1.BPM_series.length
          = ((receive_data duration ticks).2.filter tickValid).length ∧
      (receive_data duration ticks).1.SpO2_series.length
          = (receive_data duration ticks).1.BPM_series.length ∧
      (receive_data duration ticks).1.Pleth_series.length
          = (receive_data duration ticks).1.BPM_series.length ∧
      (receive_data duration ticks).1.timestamps.length
          = (receive_data duration ticks).1.BPM_series.length) ∧
    (∀ (rec : Record) (data : ℚ × ℚ × ℚ) (t : ℚ),
      (update_record rec data t).BPM_series = rec.BPM_series ++ [(t, data.1)] ∧
      (update_record rec data t).SpO2_series = rec.SpO2_series ++ [(t, data.2.1)] ∧
      (update_record rec data t).Pleth_series = rec.Pleth_series ++ [(t, data.2.2)]) := by
  constructor
  · intro duration ticks
    have h := receive_loop_lengths duration ticks ⟨[], [], [], [], []⟩
    refine ⟨?_, ?_, ?_, ?_⟩
    · simpa [receive_data] using h.1
    · have h1 := h.1
      have h2 := h.2.1
      simp only [receive_data] at h1 h2 ⊢
      simp only [List.length_nil] at h1 h2
      omega
    · have h1 := h.1
      have h2 := h.2.2.1
      simp only [receive_data] at h1 h2 ⊢
      simp only [List.length_nil] at h1 h2
      omega
    · have h1 := h.1
      have h2 := h.2.2.2.1
      simp only [receive_data] at h1 h2 ⊢
      simp only [List.length_nil] at h1 h2
      omega
  · intro rec data t
    exact ⟨rfl, rfl, rfl⟩

/-- The Python slice `s[-n:]` is a suffix of `s`. -/
theorem pyLast_suffix (n : Nat) (s : String) : (pyLast n s).data <:+ s.data :=
  List.drop_suffix _ _

/-- C6: for every explicit filename that does not end in `.csv` and does
not end in `.txt` (its extension is neither), `save_csv` fails the
extension assertion and performs no filesystem effect at all: the
filesystem (directories and files) is returned untouched and nothing is
printed; the extension check precedes every I/O side effect. -/
theorem c6_bad_extension_rejected :
    ∀ (rec : Record) (fs : FileSystem) (f folder : String) (pre : Option String)
      (nowStr : String),
      ¬ (".csv".data <:+ f.data) → ¬ (".txt".data <:+ f.data) →
      save_csv rec fs (some f) folder pre nowStr = (fs, [], .error .assertionError) := by
  intro rec fs f folder pre nowStr h1 h2
  have hc : ¬ pyLast 4 f = ".csv" := fun h => h1 (h ▸ pyLast_suffix 4 f)
  have ht : ¬ pyLast 4 f = ".txt" := fun h => h2 (h ▸ pyLast_suffix 4 f)
  simp [save_csv, resolve_filename, hc, ht]

/-- Witness for C6 at a concrete input: exporting to `data.json` is
rejected with the filesystem untouched. -/
theorem c6_bad_extension_rejected_witness :
    save_csv ⟨[], [], [], [], []⟩ ⟨[], []⟩ (some "data.json") "Records/" none "t"
      = (⟨[], []⟩, [], .error .assertionError) :=
  c6_bad_extension_rejected _ _ _ _ _ _ (by decide) (by decide)

/-- Every erroring `save_csv` call leaves the file map untouched: the only
write happens on the all-assertions-passed path. -/
theorem save_csv_error_files (rec : Record) (fs : FileSystem) (filename : Option String)
    (folder : String) (pre : Option String) (nowStr : String) :
    (save_csv rec fs filename folder pre nowStr).2.2 = .ok () ∨
    (save_csv rec fs filename folder pre nowStr).1.files = fs.files := by
  simp only [save_csv]
  split
  · split
    · right; rfl
    · split
      · split
        · right; rfl
        · left; rfl
      · split
        · right; rfl
        · left; rfl
  · right; rfl

/-- A `save_csv` call on an explicit fresh path (recognized extension,
no file at the resolved path yet) succeeds and prepends exactly the
rendered table at the resolved path. -/
theorem save_csv_writes (rec : Record) (fs : FileSystem) (f folder fldr : String)
    (pre : Option String) (now : String)
    (hn : normalize_folder folder = some fldr)
    (hext : pyLast 4 f = ".csv" ∨ pyLast 4 f = ".txt")
    (hnotfile : isfile fs (fldr ++ f) = false) :
    (save_csv rec fs (some f) folder pre now).1.files
        = (fldr ++ f, to_csv rec) :: fs.files ∧
    (save_csv rec fs (some f) folder pre now).2.2 = .ok () := by
  have hres : resolve_filename (some f) pre now = f := rfl
  simp only [save_csv, hres, if_pos hext, hn]
  by_cases hd : isdir fs fldr = true
  · simp only [hd, if_true]
    simp [hnotfile]
  · simp only [hd, Bool.false_eq_true, if_false]
    have hnotfile2 : isfile { fs with dirs := fldr :: fs.dirs } (fldr ++ f) = false :=
      hnotfile
    simp [hnotfile2]

/-- A `save_csv` call on an explicit path at which a file already exists
fails the existing-file assertion and leaves the file map untouched. -/
theorem save_csv_exists (rec : Record) (fs : FileSystem) (f folder fldr : String)
    (pre : Option String) (now : String)
    (hn : normalize_folder folder = some fldr)
    (hext : pyLast 4 f = ".csv" ∨ pyLast 4 f = ".txt")
    (hfile : isfile fs (fldr ++ f) = true) :
    (save_csv rec fs (some f) folder pre now).2.2 = .error .assertionError ∧
    (save_csv rec fs (some f) folder pre now).1.files = fs.files := by
  have hres : resolve_filename (some f) pre now = f := rfl
  simp only [save_csv, hres, if_pos hext, hn]
  by_cases hd : isdir fs fldr = true
  · simp only [hd, if_true]
    simp [hfile]
  · simp only [hd, Bool.false_eq_true, if_false]
    have hfile2 : isfile { fs with dirs := fldr :: fs.dirs } (fldr ++ f) = true := hfile
    simp [hfile2]

/-- C5: export never overwrites. (i) Whenever `save_csv` reports an
error, the file map is exactly as before the call: the existing file's
contents are unchanged and no partial file is left behind. (ii) With a
recognized extension and a resolved destination path not yet present,
two successive exports to that same resolved path succeed exactly once:
the first creates the file, the second fails the existing-file assertion
with the file map unchanged. -/
theorem c5_export_never_overwrites :
    (∀ (rec : Record) (fs : FileSystem) (filename : Option String) (folder : String)
       (pre : Option String) (nowStr : String) (fs2 : FileSystem) (out : List String)
       (e : PyErr),
      save_csv rec fs filename folder pre nowStr = (fs2, out, .error e) →
      fs2.files = fs.files) ∧
    (∀ (rec rec2 : Record) (fs : FileSystem) (f folder fldr : String) (pre : Option String)
       (now1 now2 : String),
      normalize_folder folder = some fldr →
      (pyLast 4 f = ".csv" ∨ pyLast 4 f = ".txt") →
      isfile fs (fldr ++ f) = false →
      (save_csv rec fs (some f) folder pre now1).2.2 = .ok () ∧
      isfile (save_csv rec fs (some f) folder pre now1).1 (fldr ++ f) = true ∧
      (save_csv rec2 (save_csv rec fs (some f) folder pre now1).1 (some f) folder pre
          now2).2.2 = .error .assertionError ∧
      (save_csv rec2 (save_csv rec fs (some f) folder pre now1).1 (some f) folder pre
          now2).1.files = (save_csv rec fs (some f) folder pre now1).1.files) := by
  constructor
  · intro rec fs filename folder pre nowStr fs2 out e h
    rcases save_csv_error_files rec fs filename folder pre nowStr with hok | hfiles
    · rw [h] at hok
      exact absurd hok (by simp)
    · rw [h] at hfiles
      exact hfiles
  · intro rec rec2 fs f folder fldr pre now1 now2 hn hext hnotfile
    obtain ⟨hw1, hw2⟩ := save_csv_writes rec fs f folder fldr pre now1 hn hext hnotfile
    have hfile1 : isfile (save_csv rec fs (some f) folder pre now1).1 (fldr ++ f)
        = true := by
      simp [isfile, hw1]
    obtain ⟨he1, he2⟩ := save_csv_exists rec2 (save_csv rec fs (some f) folder pre now1).1
      f folder fldr pre now2 hn hext hfile1
    exact ⟨hw2, hfile1, he1, he2⟩

/-- Witness for C5 at concrete inputs: exporting `a.csv` into `Records/`
on an empty filesystem succeeds once and fails the second time, leaving
the first file untouched. -/
theorem c5_export_never_overwrites_witness :
    (save_csv ⟨[], [], [], [], []⟩ ⟨[], []⟩ (some "a.csv") "Records/" none "t1").2.2
        = .ok () ∧
    isfile (save_csv ⟨[], [], [], [], []⟩ ⟨[], []⟩ (some "a.csv") "Records/" none "t1").1
        ("Records/" ++ "a.csv") = true ∧
    (save_csv ⟨[], [], [], [], []⟩
        (save_csv ⟨[], [], [], [], []⟩ ⟨[], []⟩ (some "a.csv") "Records/" none "t1").1
        (some "a.csv") "Records/" none "t2").2.2 = .error .assertionError ∧
    (save_csv ⟨[], [], [], [], []⟩
        (save_csv ⟨[], [], [], [], []⟩ ⟨[], []⟩ (some "a.csv") "Records/" none "t1").1
        (some "a.csv") "Records/" none "t2").1.files
      = (save_csv ⟨[], [], [], [], []⟩ ⟨[], []⟩ (some "a.csv") "Records/" none "t1").1.files :=
  c5_export_never_overwrites.2 _ _ _ _ _ "Records/" _ _ _ (by decide)
    (Or.inl (by decide)) (by decide)

/-- C9 counterexample: the header row actually written consists of an
empty index label followed by the column names `BPM`, `SpO2`, `Pleth`
(lines 45-47), not the claimed `PULSE`, `SPO2`, `PLETH`. -/
theorem c9_header_counterexample :
    csv_header_cells = ["", "BPM", "SpO2", "Pleth"] ∧
    ¬ (csv_header_cells.get? 1 = some "PULSE" ∧ csv_header_cells.get? 2 = some "SPO2" ∧
        csv_header_cells.get? 3 = some "PLETH") := by
  constructor
  · rfl
  · intro h
    exact absurd h.1 (by decide)

/-- C9 amended: the persisted file is tab-separated text whose header row
is an empty index label followed by the columns `BPM`, `SpO2`, `Pleth` —
the pulse, oxygen-saturation and plethysmogram channels in that fixed
order — with one data row (of the four cells index, BPM, SpO2, Pleth)
per sample timestamp index, rows joined by newlines and cells by tabs. -/
theorem c9_persisted_format_amended :
    ∀ rec : Record,
      rec.SpO2_series.length = rec.BPM_series.length →
      rec.Pleth_series.length = rec.BPM_series.length →
      rec.timestamps.length = rec.BPM_series.length →
      csv_header_cells = "" :: dataframe_columns ∧
      dataframe_columns = ["BPM", "SpO2", "Pleth"] ∧
      (csv_rows rec).length = rec.timestamps.length ∧
      (∀ row ∈ csv_rows rec, row.length = 4) ∧
      to_csv rec = String.intercalate "\n"
          ((csv_header_cells :: csv_rows rec).map (String.intercalate "\t")) ++ "\n" := by
  intro rec h1 h2 h3
  refine ⟨rfl, rfl, ?_, ?_, rfl⟩
  · simp [csv_rows, h1, h2, h3]
  · intro row hrow
    simp only [csv_rows, List.mem_map] at hrow
    obtain ⟨bsp, -, hb⟩ := hrow
    rw [← hb]
    rfl

/-- Witness for C9 (amended) at a concrete one-sample record. -/
theorem c9_persisted_format_amended_witness :
    (csv_rows ⟨[(1, 72)], [(1, 98)], [(1, 50)], [1],
        [{ valid := true, SpO2 := 98, BPM := 72, pleth := 50, finger_in := true }]⟩).length
      = ([1] : List ℚ).length :=
  (c9_persisted_format_amended _ rfl rfl rfl).2.2.1
